import Mathlib

/-!
Verification of the MealMD core (catalog, weight table, scoring engine,
recommender) against its specification.

Shallow embedding conventions:
* Python integers are embedded as `Nat` (the nutritional fields are
  non-negative literals) and scores as `Int`.  The Python score is a float
  that starts at `50.0` and is only ever adjusted by integer weights, so
  every value it takes is integral and float arithmetic on it is exact;
  `round(s, 1)` is the identity on such values, hence the score field of a
  result record is the score itself.
* The answer-set dictionary is embedded as a record with one field per key
  the scoring engine reads; the enum-valued entries stay `String` because
  the source stores plain strings and claims quantify over unrecognized
  values as well.
* The process-global pseudo-random generator of Python's `random` module is
  made explicit: functions that touch it take and return a `PyState`.
  `random.seed` replaces the generator state by a value computed from the
  seed argument alone, and each draw advances the state deterministically.
  The generator itself (CPython's Mersenne Twister) is modelled by an
  abstract deterministic word-sized state machine: the claims below depend
  only on determinism, on the seed/advance state discipline, and on the
  shuffle being a sequence of in-place swaps (hence a permutation), never
  on the particular values drawn.
-/

/-- A catalog entry, mirroring the `Meal` dataclass of the source. -/
structure Meal where
  name : String
  items : List String
  calories : Nat
  protein_g : Nat
  carbs_g : Nat
  fat_g : Nat
  sodium_mg : Nat
  calcium_mg : Nat
  protein_type : String
  allergens : List String
  effort : String
  takeout_ok : Bool
  spice : String
  notes : List String
deriving DecidableEq, Repr

/-- Catalog entry 1 of the source's `MEALS`. -/
def mealSalmonBowl : Meal :=
  ⟨"Grilled Salmon Bowl",
    ["grilled salmon 5 oz","quinoa 1 cup","spinach","tomato","olive oil","lemon","plain yogurt 1/2 cup"],
    650,45,55,24,520,250,"fish",["dairy"],"med",true,"mild",["Omega-3s"]⟩

/-- Catalog entry 2. -/
def mealChickenThigh : Meal :=
  ⟨"Chicken Thigh + Sweet Potato Plate",
    ["roasted chicken thigh 6 oz","baked sweet potato","steamed broccoli","tahini drizzle"],
    620,42,62,18,480,180,"poultry",["sesame"],"med",true,"mild",["balanced"]⟩

/-- Catalog entry 3. -/
def mealTofuStirFry : Meal :=
  ⟨"Tofu Stir-Fry",
    ["extra-firm tofu 6 oz","mixed vegetables","brown rice 1 cup","garlic-ginger sauce (low sodium)"],
    600,36,70,16,420,350,"plant",["soy","gluten?"],"low",false,"medium",["plant protein"]⟩

/-- Catalog entry 4. -/
def mealLentilCurry : Meal :=
  ⟨"Lentil Curry + Rice",
    ["red lentil curry 1.5 cups","basmati rice 1 cup","cucumber salad"],
    680,32,98,16,540,140,"plant",[],"med",true,"medium",["good fiber"]⟩

/-- Catalog entry 5. -/
def mealTurkeyChili : Meal :=
  ⟨"Turkey Chili (Lean)",
    ["ground turkey 93% 6 oz","beans","tomato","onion","spices"],
    640,48,58,18,620,160,"poultry",[],"med",true,"medium",["high protein"]⟩

/-- Catalog entry 6. -/
def mealBeefSteak : Meal :=
  ⟨"Beef Steak Plate",
    ["sirloin steak 6 oz","roasted potatoes","asparagus","butter"],
    720,50,46,30,540,60,"beef",["dairy?"],"high",true,"mild",["creatine-rich"]⟩

/-- Catalog entry 7. -/
def mealEggWhiteOmelet : Meal :=
  ⟨"Egg White Veggie Omelet + Oats",
    ["egg white omelet (4 whites)","mixed veggies","rolled oats 1 cup","berries"],
    520,36,66,8,420,180,"plant",["eggs","gluten?"],"low",false,"mild",["light"]⟩

/-- Catalog entry 8. -/
def mealGreekYogurt : Meal :=
  ⟨"Greek Yogurt Power Bowl",
    ["plain Greek yogurt 1.5 cups","berries","chia seeds","walnuts","honey"],
    580,42,48,20,180,450,"plant",["dairy","nuts"],"low",false,"mild",["easy"]⟩

/-- Catalog entry 9. -/
def mealSardineToast : Meal :=
  ⟨"Sardine Avocado Toast",
    ["whole-grain toast 2 slices","sardines in olive oil 1 tin","avocado","lemon"],
    560,32,44,28,520,320,"fish",["gluten?","fish"],"low",true,"mild",["omega-3s"]⟩

/-- Catalog entry 10. -/
def mealTempehBowl : Meal :=
  ⟨"Tempeh Buddha Bowl",
    ["tempeh 6 oz","farro 1 cup","kale","roasted peppers","tahini-lemon"],
    620,38,70,16,460,220,"plant",["soy","sesame"],"med",false,"mild",["fermented"]⟩

/-- Catalog entry 11. -/
def mealShrimpBowl : Meal :=
  ⟨"Shrimp Rice Bowl",
    ["shrimp 6 oz","jasmine rice 1 cup","cabbage slaw","lime","olive oil"],
    600,42,64,14,640,160,"shellfish",["shellfish"],"low",true,"mild",["lean protein"]⟩

/-- Catalog entry 12. -/
def mealChickpeaPasta : Meal :=
  ⟨"Chickpea Pasta Primavera",
    ["chickpea pasta 3 oz dry","zucchini","tomato","olive oil","basil"],
    580,34,70,14,380,120,"plant",[],"low",false,"mild",["high fiber"]⟩

/-- The static meal catalog `MEALS` of the source, in source order. -/
def MEALS : List Meal :=
  [mealSalmonBowl, mealChickenThigh, mealTofuStirFry, mealLentilCurry,
   mealTurkeyChili, mealBeefSteak, mealEggWhiteOmelet, mealGreekYogurt,
   mealSardineToast, mealTempehBowl, mealShrimpBowl, mealChickpeaPasta]

/-- The centralized weight dictionary `WEIGHTS` of the source, embedded as a
record with one field per string key. -/
structure Weights where
  match_protein_pref : Int
  mismatch_protein_pref : Int
  plant_only_penalty : Int
  fish_pref_bonus : Int
  goal_cut : Int
  goal_bulk : Int
  goal_maint : Int
  fat_penalty_cut : Int
  pre_low_fat : Int
  pre_good_carbs : Int
  pre_mod_protein : Int
  post_protein : Int
  post_carbs : Int
  post_low_fat : Int
  effort_low_bonus : Int
  effort_low_penalty : Int
  effort_med_bonus : Int
  effort_high_bonus : Int
  effort_restaurant_bonus : Int
  effort_restaurant_penalty : Int
  sodium_low_bonus : Int
  sodium_high_penalty : Int
  sodium_too_high_penalty : Int
  spice_match_bonus : Int

/-- The weight values of the source. -/
def WEIGHTS : Weights :=
  { match_protein_pref := 8
    mismatch_protein_pref := 4
    plant_only_penalty := 30
    fish_pref_bonus := 6
    goal_cut := 10
    goal_bulk := 10
    goal_maint := 5
    fat_penalty_cut := 4
    pre_low_fat := 6
    pre_good_carbs := 4
    pre_mod_protein := 3
    post_protein := 6
    post_carbs := 4
    post_low_fat := 2
    effort_low_bonus := 6
    effort_low_penalty := 3
    effort_med_bonus := 3
    effort_high_bonus := 4
    effort_restaurant_bonus := 5
    effort_restaurant_penalty := 4
    sodium_low_bonus := 5
    sodium_high_penalty := 6
    sodium_too_high_penalty := 2
    spice_match_bonus := 2 }

/-- The answer dictionary handed to `score_meal` and `recommend`: one field
per key the core reads.  Enum-valued fields stay strings, as in the source. -/
structure AnswerSet where
  goal : String
  timing : String
  protein_pref : String
  avoids : List String
  effort : String
  sodium_pref : String
  spice_pref : String
deriving DecidableEq, Repr

/-- The avoidance test of the source:
`any(a in meal.allergens for a in avoids)`.  Membership is literal string
equality, so a conditional tag such as `"gluten?"` is matched only by the
exact string `"gluten?"`, never by its base name `"gluten"`. -/
def conflictsB (meal : Meal) (avoids : List String) : Bool :=
  avoids.any fun a => meal.allergens.contains a

/-- The protein-preference rule of `score_meal`: score delta and the reasons
it appends, in source order. -/
def proteinBlock (pp : String) (m : Meal) : Int × List String :=
  if pp = "no-preference" then (0, [])
  else if pp = "plant-only" then
    if m.protein_type ≠ "plant" then (-WEIGHTS.plant_only_penalty, ["prefers plant-only"])
    else (0, [])
  else if pp = "fish/seafood" then
    if m.protein_type ≠ "fish" ∧ m.protein_type ≠ "shellfish" then
      (-WEIGHTS.mismatch_protein_pref, [])
    else (WEIGHTS.fish_pref_bonus, ["matches fish/seafood preference"])
  else
    if m.protein_type = pp then (WEIGHTS.match_protein_pref, ["matches protein preference"])
    else (-WEIGHTS.mismatch_protein_pref, [])

/-- The goal rule of `score_meal`.  The source dispatches `cut` and `bulk`
explicitly and treats every other goal string in the trailing
maintenance branch. -/
def goalBlock (goal : String) (m : Meal) : Int × List String :=
  if goal = "cut" then
    let base : Int × List String :=
      if m.calories ≤ 600 ∧ 35 ≤ m.protein_g then
        (WEIGHTS.goal_cut, ["cut: high protein, moderate calories"])
      else (0, [])
    (base.1 + (if 22 < m.fat_g then -WEIGHTS.fat_penalty_cut else 0), base.2)
  else if goal = "bulk" then
    if 650 ≤ m.calories ∧ 40 ≤ m.protein_g then (WEIGHTS.goal_bulk, ["bulk: higher cals & protein"])
    else if m.calories < 600 then (-3, [])
    else (0, [])
  else
    if 500 ≤ m.calories ∧ m.calories ≤ 700 then
      (WEIGHTS.goal_maint, ["maintenance-friendly calories"])
    else (0, [])

/-- The timing rule of `score_meal`; any timing other than `pre` and `post`
falls through with no effect. -/
def timingBlock (timing : String) (m : Meal) : Int × List String :=
  if timing = "pre" then
    let p1 : Int × List String :=
      if m.fat_g ≤ 20 then (WEIGHTS.pre_low_fat, ["pre: lighter fat"])
      else (-WEIGHTS.pre_low_fat, [])
    let p2 : Int × List String :=
      if 40 ≤ m.carbs_g ∧ m.carbs_g ≤ 90 then (WEIGHTS.pre_good_carbs, ["pre: good carbs"])
      else (0, [])
    let p3 : Int := if 25 ≤ m.protein_g ∧ m.protein_g ≤ 40 then WEIGHTS.pre_mod_protein else 0
    (p1.1 + p2.1 + p3, p1.2 ++ p2.2)
  else if timing = "post" then
    let p1 : Int × List String :=
      if 35 ≤ m.protein_g then (WEIGHTS.post_protein, ["post: protein for recovery"])
      else (0, [])
    let p2 : Int := if 50 ≤ m.carbs_g then WEIGHTS.post_carbs else 0
    let p3 : Int := if m.fat_g ≤ 20 then WEIGHTS.post_low_fat else 0
    (p1.1 + p2 + p3, p1.2)
  else (0, [])

/-- The effort rule of `score_meal`; an effort string outside the four
dispatched ones falls through with no effect. -/
def effortBlock (eff : String) (m : Meal) : Int × List String :=
  if eff = "low" then
    if m.effort = "low" then (WEIGHTS.effort_low_bonus, ["low effort prep"])
    else (-WEIGHTS.effort_low_penalty, [])
  else if eff = "med" then
    if m.effort = "low" ∨ m.effort = "med" then (WEIGHTS.effort_med_bonus, [])
    else (0, [])
  else if eff = "high" then
    if m.effort = "high" then (WEIGHTS.effort_high_bonus, [])
    else (-2, [])
  else if eff = "restaurant" then
    if m.takeout_ok then (WEIGHTS.effort_restaurant_bonus, ["restaurant/takeout friendly"])
    else (-WEIGHTS.effort_restaurant_penalty, [])
  else (0, [])

/-- The sodium rule of `score_meal`: the `lower` branch, and the trailing
`else` branch the source applies to every other sodium preference. -/
def sodiumBlock (sp : String) (m : Meal) : Int × List String :=
  if sp = "lower" then
    if m.sodium_mg ≤ 500 then (WEIGHTS.sodium_low_bonus, ["lower sodium"])
    else if 700 < m.sodium_mg then (-WEIGHTS.sodium_high_penalty, [])
    else (0, [])
  else
    if 850 < m.sodium_mg then (-WEIGHTS.sodium_too_high_penalty, [])
    else (0, [])

/-- The spice rule of `score_meal` (never appends a reason). -/
def spiceDelta (sp : String) (m : Meal) : Int :=
  if sp ≠ "no-pref" ∧ m.spice = sp then WEIGHTS.spice_match_bonus else 0

/-- Advisory flags for conditional allergen markers, in source order. -/
def mealFlags (m : Meal) : List String :=
  (if m.allergens.contains "gluten?" then ["gluten depends on ingredients"] else []) ++
  (if m.allergens.contains "dairy?" then ["omit butter to be dairy-free"] else [])

/-- The scoring engine `score_meal(meal, ans)` of the source: either the
disqualification sentinel triple, or the running score starting at 50 with
each rule's additive delta and the reasons appended in rule order. -/
def score_meal (meal : Meal) (ans : AnswerSet) : Int × List String × List String :=
  if conflictsB meal ans.avoids then
    (-999, ["conflicts with avoidances"], ["contains allergen"])
  else
    let p := proteinBlock ans.protein_pref meal
    let g := goalBlock ans.goal meal
    let t := timingBlock ans.timing meal
    let e := effortBlock ans.effort meal
    let so := sodiumBlock ans.sodium_pref meal
    let sp := spiceDelta ans.spice_pref meal
    (50 + p.1 + g.1 + t.1 + e.1 + so.1 + sp,
     p.2 ++ g.2 ++ t.2 ++ e.2 ++ so.2,
     mealFlags meal)

/-- One surviving entry of the `scored` list built by `recommend`: the tuple
`(s, m, r, f)` of the source. -/
structure ScoredEntry where
  scoreVal : Int
  meal : Meal
  reasons : List String
  flags : List String
deriving DecidableEq, Repr

/-- The filtering loop of `recommend`: score every meal and keep the entries
whose score is strictly above -500, in catalog order. -/
def scoredList (meals : List Meal) (ans : AnswerSet) : List ScoredEntry :=
  meals.filterMap fun m =>
    match score_meal m ans with
    | (s, r, f) => if s > -500 then some ⟨s, m, r, f⟩ else none

/-- Explicit state for the process-global facilities the recommender touches:
the `random` module generator word and the catalog it reads. -/
structure PyState where
  rng : Nat
  meals : List Meal
deriving DecidableEq, Repr

/-- One step of the modelled global generator (an abstract 64-bit word map;
see the module docstring for what the model is allowed to support). -/
def rngNext (g : Nat) : Nat :=
  (6364136223846793005 * g + 1442695040888963407) % (2 ^ 64)

/-- Model of `random.seed(s)`: the global state is replaced by a value
computed from the seed argument alone. -/
def pySeed (s : Int) : Nat :=
  rngNext (s.natAbs % (2 ^ 64))

/-- Model of the bounded draw used by `random.shuffle`: returns an index
below `n` and the advanced generator state. -/
def randbelow (n g : Nat) : Nat × Nat :=
  let g' := rngNext g
  (g' % n, g')

/-- Swap two positions of a list (the tuple assignment of the source's
shuffle); out-of-range indices leave the list unchanged. -/
def swapAt (xs : List α) (i j : Nat) : List α :=
  match xs.get? i, xs.get? j with
  | some a, some b => (xs.set i b).set j a
  | _, _ => xs

/-- The Fisher-Yates loop of `random.shuffle`: with fuel `k` the current
index is `k`, running from `xs.length - 1` down to `1`. -/
def shuffleGo : List α → Nat → Nat → List α × Nat
  | xs, g, 0 => (xs, g)
  | xs, g, (k+1) =>
    let p := randbelow (k+2) g
    shuffleGo (swapAt xs (k+1) p.1) p.2 k

/-- Model of `random.shuffle(xs)` on the global generator state. -/
def pyShuffle (xs : List α) (g : Nat) : List α × Nat :=
  shuffleGo xs g (xs.length - 1)

/-- Stable insertion for the descending sort: an element is placed before
the first entry of strictly smaller score, preserving the relative order of
equal scores exactly as the source's stable sort does. -/
def insertDesc (x : ScoredEntry) : List ScoredEntry → List ScoredEntry
  | [] => [x]
  | y :: ys => if y.scoreVal < x.scoreVal then x :: y :: ys else y :: insertDesc x ys

/-- The descending stable sort `scored.sort(key=..., reverse=True)`. -/
def sortDesc (l : List ScoredEntry) : List ScoredEntry :=
  l.foldr insertDesc []

/-- The macro subset packaged per recommendation record. -/
structure Macros where
  calories : Nat
  protein_g : Nat
  carbs_g : Nat
  fat_g : Nat
deriving DecidableEq, Repr

/-- One output record of `recommend`.  The score field carries
`round(s, 1)`, which is the identity here because every score the engine
produces is an integer. -/
structure RecEntry where
  name : String
  items : List String
  macros : Macros
  sodium_mg : Nat
  scoreVal : Int
  reasons : List String
  flags : List String
deriving DecidableEq, Repr

/-- Packaging of one surviving entry into an output record. -/
def packEntry (e : ScoredEntry) : RecEntry :=
  { name := e.meal.name
    items := e.meal.items
    macros := ⟨e.meal.calories, e.meal.protein_g, e.meal.carbs_g, e.meal.fat_g⟩
    sodium_mg := e.meal.sodium_mg
    scoreVal := e.scoreVal
    reasons := e.reasons
    flags := e.flags }

/-- The result dictionary of `recommend`. -/
structure RecOutput where
  top_recommendations : List RecEntry
  explanation : String
deriving DecidableEq, Repr

/-- The fixed guidance message returned when no meal survives. -/
def noFitMsg : String :=
  "No meals fit all choices. Try relaxing one avoidance or picking 'No preference'."

/-- The explanation attached to a non-empty result. -/
def okMsg : String :=
  "Simple terminal helper for meal ideas."

/-- The recommender `recommend(ans, top_k, seed)` of the source, with the
process-global state explicit.  The empty check precedes seeding, so a call
that finds no survivor never touches the generator; a seeded call reseeds
the global generator and shuffles before the stable descending sort and
truncation to `top_k`. -/
def recommend (ans : AnswerSet) (top_k : Nat) (seed : Option Int) (st : PyState) :
    RecOutput × PyState :=
  let scored := scoredList st.meals ans
  if scored.isEmpty then
    ({ top_recommendations := [], explanation := noFitMsg }, st)
  else
    match seed with
    | none =>
      ({ top_recommendations := ((sortDesc scored).take top_k).map packEntry,
         explanation := okMsg }, st)
    | some s =>
      let sh := pyShuffle scored (pySeed s)
      ({ top_recommendations := ((sortDesc sh.1).take top_k).map packEntry,
         explanation := okMsg }, { st with rng := sh.2 })

/-! ## Helper lemmas about the scoring engine -/

/-- A conflicting meal is disqualified with the exact sentinel triple. -/
theorem score_conflict (m : Meal) (a : AnswerSet) (h : conflictsB m a.avoids = true) :
    score_meal m a = (-999, ["conflicts with avoidances"], ["contains allergen"]) := by
  simp [score_meal, h]

/-- The protein rule never subtracts more than the plant-only penalty. -/
theorem proteinBlock_ge (pp : String) (m : Meal) : -30 ≤ (proteinBlock pp m).1 := by
  unfold proteinBlock
  repeat' split
  all_goals decide

/-- The goal rule never subtracts more than the cut fat penalty. -/
theorem goalBlock_ge (g : String) (m : Meal) : -4 ≤ (goalBlock g m).1 := by
  unfold goalBlock
  repeat' split
  all_goals decide

/-- The timing rule never subtracts more than the pre-workout fat penalty. -/
theorem timingBlock_ge (t : String) (m : Meal) : -6 ≤ (timingBlock t m).1 := by
  unfold timingBlock
  repeat' split
  all_goals decide

/-- The effort rule never subtracts more than the restaurant penalty. -/
theorem effortBlock_ge (e : String) (m : Meal) : -4 ≤ (effortBlock e m).1 := by
  unfold effortBlock
  repeat' split
  all_goals decide

/-- The sodium rule never subtracts more than the high-sodium penalty. -/
theorem sodiumBlock_ge (sp : String) (m : Meal) : -6 ≤ (sodiumBlock sp m).1 := by
  unfold sodiumBlock
  repeat' split
  all_goals decide

/-- The spice rule never subtracts. -/
theorem spiceDelta_ge (sp : String) (m : Meal) : 0 ≤ spiceDelta sp m := by
  unfold spiceDelta
  split <;> decide

/-- A non-disqualified meal scores at least 0: the worst case stacks the
plant-only, cut-fat, pre-fat, restaurant and high-sodium penalties against
the 50-point baseline. -/
theorem score_no_conflict_ge (m : Meal) (a : AnswerSet) (h : conflictsB m a.avoids = false) :
    0 ≤ (score_meal m a).1 := by
  have hp := proteinBlock_ge a.protein_pref m
  have hg := goalBlock_ge a.goal m
  have ht := timingBlock_ge a.timing m
  have he := effortBlock_ge a.effort m
  have hs := sodiumBlock_ge a.sodium_pref m
  have hsp := spiceDelta_ge a.spice_pref m
  simp only [score_meal, h, Bool.false_eq_true, if_false]
  omega

/-- The recommender's filter bit coincides with non-disqualification. -/
theorem keep_iff (m : Meal) (a : AnswerSet) :
    ((score_meal m a).1 > -500) ↔ conflictsB m a.avoids = false := by
  constructor
  · intro h
    cases hc : conflictsB m a.avoids
    · rfl
    · rw [score_conflict m a hc] at h
      omega
  · intro h
    have := score_no_conflict_ge m a h
    omega

theorem scoredList_length (meals : List Meal) (a : AnswerSet) :
    (scoredList meals a).length = meals.countP fun m => !(conflictsB m a.avoids) := by
  induction meals with
  | nil => rfl
  | cons m ms ih =>
    by_cases h : conflictsB m a.avoids
    · have hk : ¬ ((score_meal m a).1 > -500) := by
        rw [keep_iff]; simp [h]
      simp [scoredList, List.filterMap_cons, List.countP_cons, h, hk] at *
      simpa [scoredList] using ih
    · have hb : conflictsB m a.avoids = false := by simpa using h
      have hk : (score_meal m a).1 > -500 := (keep_iff m a).2 hb
      simp [scoredList, List.filterMap_cons, List.countP_cons, hb, hk] at *
      simpa [scoredList] using ih

theorem mem_scoredList (meals : List Meal) (a : AnswerSet) (e : ScoredEntry)
    (h : e ∈ scoredList meals a) :
    e.meal ∈ meals ∧ e.scoreVal = (score_meal e.meal a).1 ∧ e.scoreVal > -500 := by
  rw [scoredList, List.mem_filterMap] at h
  obtain ⟨m, hm, hf⟩ := h
  rcases hs : score_meal m a with ⟨s, r, f⟩
  rw [hs] at hf
  by_cases hgt : s > -500
  · simp [hgt] at hf
    subst hf
    exact ⟨hm, by simp [hs], hgt⟩
  · simp [hgt] at hf

theorem length_swapAt (xs : List α) (i j : Nat) : (swapAt xs i j).length = xs.length := by
  unfold swapAt
  split <;> simp

theorem mem_swapAt (xs : List α) (i j : Nat) (y : α) (h : y ∈ swapAt xs i j) : y ∈ xs := by
  unfold swapAt at h
  cases hi : xs.get? i with
  | none => rw [hi] at h; exact h
  | some a =>
    cases hj : xs.get? j with
    | none => rw [hi, hj] at h; exact h
    | some b =>
      rw [hi, hj] at h
      rcases List.mem_or_eq_of_mem_set h with h' | rfl
      · rcases List.mem_or_eq_of_mem_set h' with h'' | rfl
        · exact h''
        · exact List.get?_mem hj
      · exact List.get?_mem hi

theorem length_shuffleGo (xs : List α) (g k : Nat) :
    (shuffleGo xs g k).1.length = xs.length := by
  induction k generalizing xs g with
  | zero => rfl
  | succ n ih => rw [shuffleGo, ih, length_swapAt]

theorem mem_shuffleGo (xs : List α) (g k : Nat) (y : α) (h : y ∈ (shuffleGo xs g k).1) :
    y ∈ xs := by
  induction k generalizing xs g with
  | zero => exact h
  | succ n ih => exact mem_swapAt _ _ _ _ (ih _ _ h)

theorem length_pyShuffle (xs : List α) (g : Nat) : (pyShuffle xs g).1.length = xs.length :=
  length_shuffleGo xs g (xs.length - 1)

theorem mem_pyShuffle (xs : List α) (g : Nat) (y : α) (h : y ∈ (pyShuffle xs g).1) : y ∈ xs :=
  mem_shuffleGo xs g (xs.length - 1) y h

theorem length_insertDesc (x : ScoredEntry) (l : List ScoredEntry) :
    (insertDesc x l).length = l.length + 1 := by
  induction l with
  | nil => rfl
  | cons y ys ih =>
    rw [insertDesc]
    split <;> simp [ih]

theorem mem_insertDesc (x y : ScoredEntry) (l : List ScoredEntry)
    (h : y ∈ insertDesc x l) : y = x ∨ y ∈ l := by
  induction l with
  | nil => simpa [insertDesc] using h
  | cons z zs ih =>
    by_cases hc : z.scoreVal < x.scoreVal
    · rw [insertDesc, if_pos hc] at h
      rcases List.mem_cons.1 h with h' | h'
      · exact Or.inl h'
      · exact Or.inr h'
    · rw [insertDesc, if_neg hc] at h
      rcases List.mem_cons.1 h with h' | h'
      · exact Or.inr (List.mem_cons.2 (Or.inl h'))
      · rcases ih h' with h'' | h''
        · exact Or.inl h''
        · exact Or.inr (List.mem_cons.2 (Or.inr h''))

theorem length_sortDesc (l : List ScoredEntry) : (sortDesc l).length = l.length := by
  induction l with
  | nil => rfl
  | cons x xs ih =>
    show (insertDesc x (sortDesc xs)).length = xs.length + 1
    rw [length_insertDesc, ih]

theorem mem_sortDesc (y : ScoredEntry) (l : List ScoredEntry) (h : y ∈ sortDesc l) : y ∈ l := by
  induction l with
  | nil => exact absurd h (by simp [sortDesc])
  | cons x xs ih =>
    have h' : y ∈ insertDesc x (sortDesc xs) := h
    rcases mem_insertDesc x y (sortDesc xs) h' with h'' | h''
    · simp [h'']
    · simp [ih h'']

theorem topRecs_length (a : AnswerSet) (k : Nat) (seed : Option Int) (st : PyState) :
    ((recommend a k seed st).1.top_recommendations).length
      = min k (scoredList st.meals a).length := by
  unfold recommend
  by_cases he : (scoredList st.meals a).isEmpty
  · rw [List.isEmpty_iff] at he
    simp [he]
  · cases seed with
    | none =>
      simp only [he, if_false, Bool.false_eq_true]
      simp [List.length_take, length_sortDesc]
    | some s =>
      simp only [he, if_false, Bool.false_eq_true]
      simp [List.length_take, length_sortDesc, length_pyShuffle]

theorem mem_topRecs (a : AnswerSet) (k : Nat) (seed : Option Int) (st : PyState) (r : RecEntry)
    (h : r ∈ (recommend a k seed st).1.top_recommendations) :
    ∃ e, e ∈ scoredList st.meals a ∧ r = packEntry e := by
  unfold recommend at h
  by_cases he : (scoredList st.meals a).isEmpty
  · rw [List.isEmpty_iff] at he
    simp [he] at h
  · cases seed with
    | none =>
      simp only [he, if_false, Bool.false_eq_true] at h
      simp only [List.mem_map] at h
      obtain ⟨e, he', rfl⟩ := h
      exact ⟨e, mem_sortDesc _ _ (List.mem_of_mem_take he'), rfl⟩
    | some s =>
      simp only [he, if_false, Bool.false_eq_true] at h
      simp only [List.mem_map] at h
      obtain ⟨e, he', rfl⟩ := h
      exact ⟨e, mem_pyShuffle _ _ _ (mem_sortDesc _ _ (List.mem_of_mem_take he')), rfl⟩

theorem meal_name_inj (m m' : Meal) (hm : m ∈ MEALS) (hm' : m' ∈ MEALS)
    (h : m.name = m'.name) : m = m' := by
  have hnd : ((MEALS.map Meal.name).Nodup) := by decide
  exact List.inj_on_of_nodup_map hnd hm hm' h

/-! ## Claim theorems -/

/-- The avoidance test succeeds exactly when some avoided tag occurs
literally among the meal's allergen strings. -/
theorem conflictsB_iff (m : Meal) (av : List String) :
    conflictsB m av = true ↔ ∃ t ∈ av, t ∈ m.allergens := by
  rw [conflictsB, List.any_eq_true]
  simp

/-- The base form of an allergen tag as the claim describes it: a trailing
question-mark marker is stripped.  (The source itself never strips markers;
this definition only formalizes the claim's wording.) -/
def stripMark (s : String) : String :=
  if s.data.getLast? = some (Char.ofNat 63) then String.mk s.data.dropLast else s

/-- An answer set avoiding gluten, all other fields neutral. -/
def ansAvoidGluten : AnswerSet :=
  ⟨"maintenance", "any", "no-preference", ["gluten"], "med", "lower", "no-pref"⟩

/-- C1: counterexample.  The Tofu Stir-Fry carries the conditional tag
"gluten?", whose stripped base "gluten" is avoided, yet the meal is not
disqualified (the source matches tags literally, so "gluten" never matches
"gluten?"): its score is not -999 and it appears in a recommend result. -/
theorem C1_counterexample :
    (∃ t ∈ mealTofuStirFry.allergens, stripMark t ∈ ansAvoidGluten.avoids)
    ∧ (score_meal mealTofuStirFry ansAvoidGluten).1 ≠ -999
    ∧ ∃ r ∈ (recommend ansAvoidGluten 12 none ⟨0, MEALS⟩).1.top_recommendations,
        r.name = mealTofuStirFry.name := by
  decide

/-- C1 (amended): disqualification totality holds for literal tag matching.
For every catalog meal and answer set, if some avoided string occurs
literally among the meal's allergen tags (so a conditional "tag?" marker is
matched only by the exact string with the marker, never by its base name),
then score_meal returns exactly the sentinel triple and no record of any
recommend result carries the meal's name, for any topK, seed and prior
generator state. -/
theorem C1_disqualification (m : Meal) (a : AnswerSet)
    (hm : m ∈ MEALS) (h : ∃ t ∈ a.avoids, t ∈ m.allergens) :
    score_meal m a = (-999, ["conflicts with avoidances"], ["contains allergen"])
    ∧ ∀ (k : Nat) (seed : Option Int) (g : Nat) (r : RecEntry),
        r ∈ (recommend a k seed ⟨g, MEALS⟩).1.top_recommendations → r.name ≠ m.name := by
  have hc : conflictsB m a.avoids = true := (conflictsB_iff m a.avoids).2 h
  refine ⟨score_conflict m a hc, ?_⟩
  intro k seed g r hr hname
  obtain ⟨e, he, rfl⟩ := mem_topRecs a k seed ⟨g, MEALS⟩ r hr
  obtain ⟨hmem, hscore, hgt⟩ := mem_scoredList _ _ _ he
  have hem : e.meal = m := meal_name_inj e.meal m hmem hm hname
  rw [hem] at hscore
  rw [score_conflict m a hc] at hscore
  simp at hscore
  omega

/-- C1 witness: the Shrimp Rice Bowl against an answer set avoiding
shellfish is disqualified with the exact sentinel triple. -/
theorem C1_witness :
    score_meal mealShrimpBowl
        ⟨"maintenance", "any", "no-preference", ["shellfish"], "med", "lower", "no-pref"⟩
      = (-999, ["conflicts with avoidances"], ["contains allergen"]) :=
  (C1_disqualification mealShrimpBowl
    ⟨"maintenance", "any", "no-preference", ["shellfish"], "med", "lower", "no-pref"⟩
    (by decide) (by decide)).1

/-- The full avoidance selection, in the order the wizard produces it. -/
def full7 : List String := ["dairy", "gluten", "nuts", "eggs", "soy", "shellfish", "sesame"]

/-- An answer set avoiding all seven allergens, all other fields neutral. -/
def ansAvoidAll : AnswerSet :=
  ⟨"maintenance", "any", "no-preference", full7, "med", "normal", "no-pref"⟩

/-- The avoidance bit depends only on the avoid list's membership set. -/
theorem conflictsB_set_congr (m : Meal) (av av' : List String)
    (h : ∀ t ∈ av, t ∈ av') (h' : ∀ t ∈ av', t ∈ av) :
    conflictsB m av = conflictsB m av' := by
  rw [Bool.eq_iff_iff, conflictsB_iff, conflictsB_iff]
  constructor
  · rintro ⟨t, ht, ht'⟩
    exact ⟨t, h t ht, ht'⟩
  · rintro ⟨t, ht, ht'⟩
    exact ⟨t, h' t ht, ht'⟩

/-- C2: counterexample.  Avoiding all seven allergens does not empty the
result: recommend returns a non-empty list without the no-meals-fit message,
and the claim's premise fails because some catalog meal (Lentil Curry +
Rice) carries none of the seven tags at all. -/
theorem C2_counterexample :
    (recommend ansAvoidAll 3 none ⟨0, MEALS⟩).1.top_recommendations ≠ []
    ∧ (recommend ansAvoidAll 3 none ⟨0, MEALS⟩).1.explanation ≠ noFitMsg
    ∧ ∃ m ∈ MEALS, ∀ t ∈ full7, t ∉ m.allergens := by
  decide

/-- C2 (amended): for every answer set whose avoids equal the full
seven-allergen set, recommend keeps exactly the five catalog meals whose
allergen strings contain none of the seven tags literally (Lentil Curry +
Rice, Turkey Chili, Beef Steak Plate, Sardine Avocado Toast, Chickpea Pasta
Primavera), so the result has min(topK, 5) records rather than none. -/
theorem C2_all_avoided (a : AnswerSet) (k : Nat) (seed : Option Int) (g : Nat)
    (h1 : ∀ t ∈ a.avoids, t ∈ full7) (h2 : ∀ t ∈ full7, t ∈ a.avoids) :
    ((recommend a k seed ⟨g, MEALS⟩).1.top_recommendations).length = min k 5 := by
  rw [topRecs_length, scoredList_length]
  have hcnt : (PyState.mk g MEALS).meals.countP (fun m => !(conflictsB m a.avoids))
      = MEALS.countP (fun m => !(conflictsB m full7)) :=
    List.countP_congr fun m _ => by rw [conflictsB_set_congr m a.avoids full7 h1 h2]
  rw [hcnt]
  have h5 : MEALS.countP (fun m => !(conflictsB m full7)) = 5 := by decide
  rw [h5]

/-- C2 witness: with every allergen avoided and topK 3, the recommender
still returns min(3, 5) = 3 records. -/
theorem C2_witness :
    ((recommend ansAvoidAll 3 none ⟨0, MEALS⟩).1.top_recommendations).length = min 3 5 :=
  C2_all_avoided ansAvoidAll 3 none 0 (by decide) (by decide)

/-- An answer set for which every scoring rule is inert on suitable meals. -/
def ansNeutral : AnswerSet :=
  ⟨"maintenance", "any", "no-preference", [], "med", "lower", "no-pref"⟩

/-- C3: counterexample.  An unrecognized protein preference is not ignored:
the final dispatch branch treats it as a named protein type and applies the
mismatch penalty (score 46 instead of the no-effect 50 on the Beef Steak
Plate), and an unrecognized goal string lands in the maintenance branch,
which grants a bonus on the Lentil Curry. -/
theorem C3_counterexample :
    (proteinBlock "keto" mealBeefSteak).1 ≠ 0
    ∧ (score_meal mealBeefSteak { ansNeutral with protein_pref := "keto" }).1 = 46
    ∧ (score_meal mealBeefSteak ansNeutral).1 = 50
    ∧ (goalBlock "recomp" mealLentilCurry).1 ≠ 0 := by
  decide

/-- C3 (amended): score_meal is a total function, so no crash occurs, and
an unrecognized timing, effort or (for catalog meals) spice preference makes
its rule a no-op; but an unrecognized goal behaves as maintenance, an
unrecognized sodium preference behaves as normal, and an unrecognized
protein preference falls into the named-type branch and draws the mismatch
penalty whenever it differs from the meal's protein type. -/
theorem C3_unrecognized (m : Meal) (a : AnswerSet) :
    (a.timing ≠ "pre" → a.timing ≠ "post" → timingBlock a.timing m = (0, []))
    ∧ (a.effort ≠ "low" → a.effort ≠ "med" → a.effort ≠ "high" → a.effort ≠ "restaurant" →
        effortBlock a.effort m = (0, []))
    ∧ (a.spice_pref ≠ m.spice → spiceDelta a.spice_pref m = 0)
    ∧ (a.goal ≠ "cut" → a.goal ≠ "bulk" → goalBlock a.goal m = goalBlock "maintenance" m)
    ∧ (a.sodium_pref ≠ "lower" → sodiumBlock a.sodium_pref m = sodiumBlock "normal" m)
    ∧ (a.protein_pref ≠ "no-preference" → a.protein_pref ≠ "plant-only" →
        a.protein_pref ≠ "fish/seafood" → a.protein_pref ≠ m.protein_type →
        proteinBlock a.protein_pref m = (-WEIGHTS.mismatch_protein_pref, [])) := by
  refine ⟨?_, ?_, ?_, ?_, ?_, ?_⟩
  · intro h1 h2
    simp [timingBlock, h1, h2]
  · intro h1 h2 h3 h4
    simp [effortBlock, h1, h2, h3, h4]
  · intro h1
    simp [spiceDelta]
    intro _ h
    exact absurd h.symm h1
  · intro h1 h2
    simp [goalBlock, h1, h2]
  · intro h1
    simp [sodiumBlock, h1]
  · intro h1 h2 h3 h4
    simp [proteinBlock, h1, h2, h3]
    intro h
    exact absurd h.symm h4

/-- C3 witness: the unrecognized timing value "brunch" leaves the timing
rule without any effect. -/
theorem C3_witness : timingBlock "brunch" mealBeefSteak = (0, []) :=
  (C3_unrecognized mealBeefSteak
    ⟨"maintenance", "brunch", "no-preference", [], "med", "lower", "no-pref"⟩).1
    (by decide) (by decide)

/-- C4: counterexample.  A seeded recommend call mutates the process-global
generator: starting from global state 0, the state after the call differs
from 0, so a later draw observes state the seeded call left behind. -/
theorem C4_counterexample :
    (recommend ansNeutral 3 (some 42) ⟨0, MEALS⟩).2.rng ≠ 0 := by
  decide

/-- C4 (amended): a seeded recommend call does write the process-global
generator whenever any meal survives the filter - it reseeds, so the
post-call state is a function of the call's inputs alone, identical across
any two prior global states - while an unseeded call never touches the
global generator. -/
theorem C4_global_state (a : AnswerSet) (k : Nat) (s : Int) (g g' : Nat)
    (h : scoredList MEALS a ≠ []) :
    (recommend a k (some s) ⟨g, MEALS⟩).2.rng = (recommend a k (some s) ⟨g', MEALS⟩).2.rng
    ∧ (recommend a k none ⟨g, MEALS⟩).2.rng = g := by
  constructor
  · have he : (scoredList MEALS a).isEmpty = false := by
      cases he : (scoredList MEALS a).isEmpty
      · rfl
      · exact absurd (List.isEmpty_iff.1 he) h
    simp [recommend, he]
  · unfold recommend
    cases he : (scoredList MEALS a).isEmpty <;> simp [he]

/-- C4 witness: with the neutral answer set, seed 42 leaves the same global
state whether the generator started at 0 or 1, and the unseeded call leaves
state 0 untouched. -/
theorem C4_witness :
    (recommend ansNeutral 3 (some 42) ⟨0, MEALS⟩).2.rng
      = (recommend ansNeutral 3 (some 42) ⟨1, MEALS⟩).2.rng
    ∧ (recommend ansNeutral 3 none ⟨0, MEALS⟩).2.rng = 0 :=
  C4_global_state ansNeutral 3 42 0 1 (by decide)

/-- C5: seeded reproducibility.  A seeded recommend call reads nothing from
the prior global generator state, so two invocations with identical answer
set, topK and seed return structurally identical outputs - same records,
same order including tie resolution, same scores, reasons and flags. -/
theorem C5_seeded_reproducibility (a : AnswerSet) (k : Nat) (s : Int) (g g' : Nat) :
    (recommend a k (some s) ⟨g, MEALS⟩).1 = (recommend a k (some s) ⟨g', MEALS⟩).1 := by
  unfold recommend
  cases he : (scoredList MEALS a).isEmpty <;> simp [he]

/-- C6: top-K bound.  For every answer set, topK, seed and prior generator
state, the number of returned records is exactly the minimum of topK and
the number of catalog meals scoring strictly above -500. -/
theorem C6_topK_bound (a : AnswerSet) (k : Nat) (seed : Option Int) (g : Nat) :
    ((recommend a k seed ⟨g, MEALS⟩).1.top_recommendations).length
      = min k (MEALS.countP fun m => decide ((score_meal m a).1 > -500)) := by
  rw [topRecs_length, scoredList_length]
  congr 1
  apply List.countP_congr
  intro m _
  simp [keep_iff]

/-- C7: additivity baseline.  When no avoidance conflict fires and every
scoring rule contributes a zero delta, the score is exactly the 50-point
baseline. -/
theorem C7_baseline (m : Meal) (a : AnswerSet)
    (h0 : conflictsB m a.avoids = false)
    (h1 : (proteinBlock a.protein_pref m).1 = 0)
    (h2 : (goalBlock a.goal m).1 = 0)
    (h3 : (timingBlock a.timing m).1 = 0)
    (h4 : (effortBlock a.effort m).1 = 0)
    (h5 : (sodiumBlock a.sodium_pref m).1 = 0)
    (h6 : spiceDelta a.spice_pref m = 0) :
    (score_meal m a).1 = 50 := by
  simp [score_meal, h0, h1, h2, h3, h4, h5, h6]

/-- C7 witness: the Beef Steak Plate against the neutral answer set leaves
every rule inert and scores exactly 50. -/
theorem C7_witness : (score_meal mealBeefSteak ansNeutral).1 = 50 :=
  C7_baseline mealBeefSteak ansNeutral (by decide) (by decide) (by decide) (by decide)
    (by decide) (by decide) (by decide)

/-- C8: the sodium rule under the `lower` preference.  For a
non-disqualified meal the total score decomposes into the other rules'
deltas plus the sodium term: the low-sodium bonus at sodium ≤ 500, the
high-sodium penalty above 700, and no adjustment in the 500-700 gap. -/
theorem C8_sodium_rule (m : Meal) (a : AnswerSet)
    (h0 : conflictsB m a.avoids = false) (h : a.sodium_pref = "lower") :
    (score_meal m a).1
      = 50 + (proteinBlock a.protein_pref m).1 + (goalBlock a.goal m).1
        + (timingBlock a.timing m).1 + (effortBlock a.effort m).1
        + (if m.sodium_mg ≤ 500 then WEIGHTS.sodium_low_bonus
           else if 700 < m.sodium_mg then -WEIGHTS.sodium_high_penalty else 0)
        + spiceDelta a.spice_pref m := by
  simp only [score_meal, h0, Bool.false_eq_true, if_false, h]
  by_cases hs : m.sodium_mg ≤ 500
  · simp [sodiumBlock, hs]
  · by_cases hs' : 700 < m.sodium_mg
    · simp [sodiumBlock, hs, hs']
    · simp [sodiumBlock, hs, hs']

/-- C8 witness: the Tofu Stir-Fry (420 mg sodium) under the lower-sodium
preference receives the low-sodium bonus inside the decomposed score. -/
theorem C8_witness :
    (score_meal mealTofuStirFry ansNeutral).1
      = 50 + (proteinBlock "no-preference" mealTofuStirFry).1
        + (goalBlock "maintenance" mealTofuStirFry).1
        + (timingBlock "any" mealTofuStirFry).1 + (effortBlock "med" mealTofuStirFry).1
        + (if mealTofuStirFry.sodium_mg ≤ 500 then WEIGHTS.sodium_low_bonus
           else if 700 < mealTofuStirFry.sodium_mg then -WEIGHTS.sodium_high_penalty else 0)
        + spiceDelta "no-pref" mealTofuStirFry :=
  C8_sodium_rule mealTofuStirFry ansNeutral (by decide) rfl

/-- C9: no side effects on the catalog.  The recommender returns the state
with the catalog component untouched - each embedded step of the source
reads meals but never writes them - so every field of every catalog entry
is unchanged by a call (and the scoring engine is a pure function of its
arguments). -/
theorem C9_catalog_immutable (a : AnswerSet) (k : Nat) (seed : Option Int) (st : PyState) :
    (recommend a k seed st).2.meals = st.meals := by
  unfold recommend
  cases seed <;> cases he : (scoredList st.meals a).isEmpty <;> simp [he]

/-- The answer-set fields hold recognized enum values only (the claim's
hypothesis; `avoids` drawn from the seven base allergen tags). -/
abbrev ValidAnswers (a : AnswerSet) : Prop :=
  a.goal ∈ ["cut", "maintenance", "bulk"]
  ∧ a.timing ∈ ["pre", "post", "any"]
  ∧ a.protein_pref ∈ ["beef", "poultry", "fish/seafood", "plant-only", "no-preference"]
  ∧ (∀ t ∈ a.avoids, t ∈ full7)
  ∧ a.effort ∈ ["low", "med", "high", "restaurant"]
  ∧ a.sodium_pref ∈ ["normal", "lower"]
  ∧ a.spice_pref ∈ ["mild", "medium", "spicy", "no-pref"]

/-- C10: score dichotomy.  For catalog meals and recognized answer values
the score is either exactly the -999 sentinel or strictly above -500, and
the recommender's score filter keeps a meal exactly when no avoidance
conflict fired. -/
theorem C10_score_dichotomy (m : Meal) (a : AnswerSet)
    (_hm : m ∈ MEALS) (_hv : ValidAnswers a) :
    ((score_meal m a).1 = -999 ∨ (score_meal m a).1 > -500)
    ∧ ((score_meal m a).1 > -500 ↔ conflictsB m a.avoids = false) := by
  refine ⟨?_, keep_iff m a⟩
  cases hc : conflictsB m a.avoids
  · right
    have := score_no_conflict_ge m a hc
    omega
  · left
    rw [score_conflict m a hc]

/-- C10 witness: the Grilled Salmon Bowl against the neutral answer set
satisfies the dichotomy and the filter characterization. -/
theorem C10_witness :
    ((score_meal mealSalmonBowl ansNeutral).1 = -999
      ∨ (score_meal mealSalmonBowl ansNeutral).1 > -500)
    ∧ ((score_meal mealSalmonBowl ansNeutral).1 > -500
      ↔ conflictsB mealSalmonBowl ansNeutral.avoids = false) :=
  C10_score_dichotomy mealSalmonBowl ansNeutral (by decide) (by decide)
